import Mathlib

set_option maxRecDepth 100000

/-!
Shallow embedding of the MicroCVM instruction engine (`src/cpu.rs`) and the
theorems checking the specification's claims against it.

Machine bytes (`u8` in the source) are embedded as `Nat`; wherever the source
performs wrapping `u8` arithmetic the embedding applies `% 256` explicitly.
General memory (`Vec<u8>`) is a `List Nat`; reads use `List.getD _ _ 0`, which
agrees with Rust indexing whenever the index is in bounds — theorems that
quantify over machine states assume `256 ≤ memory.length` and `pc < 256`, the
range the source's `u8` fields and the 2 MiB allocation guarantee (an
out-of-bounds index panics in Rust; the one operation that can shrink the
buffer below 256 bytes is recorded in the results on program loading).
The `video_memory` field of the source struct is carried by no claim and no
general opcode touches it, so it is omitted from the state record.
-/

namespace MicroCVM

/-- Size of general memory in the source: `FREE_MEMORY = 2048 * 1024`. -/
def FREE_MEMORY : Nat := 2048 * 1024

/-- The CPU state of `MicroCVMCpu` in `src/cpu.rs`: general memory, the eight
general-purpose registers, stack pointer, program counter and flags. -/
structure MicroCVMCpu where
  memory : List Nat
  registers : List Nat
  sp : Nat
  pc : Nat
  flags : Nat
deriving DecidableEq, Repr

/-- The opcode identities of the `OpcodeType` enum in `src/cpu.rs`. -/
inductive OpcodeType where
  | Load
  | Store
  | Add
  | Sub
  | Jmp
  | Hlt
  | Mov
  | Inc
  | Div
  | Mul
  | Nop
deriving DecidableEq, Repr

/-- Error payload of a failed `OpcodeType::try_from` (struct `InvalidOpcode`). -/
structure InvalidOpcode where
  byte : Nat
deriving DecidableEq, Repr

/-- Error payload of a failed `Register::try_from` (struct `InvalidRegister`). -/
structure InvalidRegister where
  byte : Nat
deriving DecidableEq, Repr

/-- The `Register` enum `R0`–`R7` of the source, embedded as `Fin 8`. -/
abbrev Register := Fin 8

/-- The `TryFrom<u8> for OpcodeType` table of `src/cpu.rs`: the eleven fixed
byte values map to their opcode, every other byte is an `InvalidOpcode` error. -/
def OpcodeType.try_from (value : Nat) : Except InvalidOpcode OpcodeType :=
  if value = 0x01 then Except.ok OpcodeType.Load
  else if value = 0x02 then Except.ok OpcodeType.Store
  else if value = 0x03 then Except.ok OpcodeType.Add
  else if value = 0x04 then Except.ok OpcodeType.Sub
  else if value = 0x05 then Except.ok OpcodeType.Jmp
  else if value = 0x06 then Except.ok OpcodeType.Mov
  else if value = 0x07 then Except.ok OpcodeType.Inc
  else if value = 0x08 then Except.ok OpcodeType.Div
  else if value = 0x09 then Except.ok OpcodeType.Mul
  else if value = 0xFF then Except.ok OpcodeType.Hlt
  else if value = 0x90 then Except.ok OpcodeType.Nop
  else Except.error { byte := value }

/-- The `TryFrom<u8> for Register` conversion: bytes `0`–`7` name a register,
anything larger is an `InvalidRegister` error. -/
def Register.try_from (value : Nat) : Except InvalidRegister Register :=
  if h : value < 8 then Except.ok ⟨value, h⟩
  else Except.error { byte := value }

/-- First operand of a decoded instruction (`enum OpcodeArg1`). -/
inductive OpcodeArg1 where
  | Register (r : MicroCVM.Register)
  | Address (a : Nat)
deriving DecidableEq, Repr

/-- Second operand of a decoded instruction (`enum OpcodeArg2`); the source
declares an `Immediate` variant but `create_opcode` never constructs it. -/
inductive OpcodeArg2 where
  | Register (r : MicroCVM.Register)
  | Immediate (n : Nat)
  | Address (a : Nat)
deriving DecidableEq, Repr

/-- A decoded instruction (`struct Opcode`). -/
structure Opcode where
  opcode_type : OpcodeType
  argument_count : Nat
  arg1 : Option OpcodeArg1
  arg2 : Option OpcodeArg2
deriving DecidableEq, Repr

/-- `Opcode::empty()`: the all-defaults instruction `create_opcode` starts from. -/
def Opcode.empty : Opcode :=
  { opcode_type := OpcodeType.Nop, argument_count := 0, arg1 := none, arg2 := none }

/-- `MicroCVMCpu::empty()`: 2 MiB of zeroed memory, zeroed registers and
zeroed special registers. -/
def MicroCVMCpu.empty : MicroCVMCpu :=
  { memory := List.replicate FREE_MEMORY 0
    registers := List.replicate 8 0
    sp := 0
    pc := 0
    flags := 0 }

/-- `get_opcode_argument_count` of `src/cpu.rs`: `Inc` takes one argument,
`Mov`/`Add`/`Sub`/`Div`/`Mul` take two, and every other opcode — including
`Load`, `Store` and `Jmp` — falls into the default arm and takes zero. -/
def get_opcode_argument_count : OpcodeType → Nat
  | OpcodeType.Inc => 1
  | OpcodeType.Mov => 2
  | OpcodeType.Add => 2
  | OpcodeType.Sub => 2
  | OpcodeType.Div => 2
  | OpcodeType.Mul => 2
  | _ => 0

/-- `create_opcode` of `src/cpu.rs`: fetch the byte at `pc`, map it through
`OpcodeType::try_from` with `unwrap_or(Nop)`, look up the argument count, and
for each required argument classify the following byte — values below 8 become
`Register`, all others `Address`. Operand offsets are `u8` additions, hence
the `% 256`. -/
def create_opcode (cpu : MicroCVMCpu) : Opcode :=
  let opcode_byte := cpu.memory.getD cpu.pc 0
  let opcode_type :=
    match OpcodeType.try_from opcode_byte with
    | Except.ok t => t
    | Except.error _ => OpcodeType.Nop
  let argument_count := get_opcode_argument_count opcode_type
  let arg1 : Option OpcodeArg1 :=
    if argument_count ≥ 1 then
      let a1 := cpu.memory.getD ((cpu.pc + 1) % 256) 0
      some (if h : a1 < 8 then OpcodeArg1.Register ⟨a1, h⟩ else OpcodeArg1.Address a1)
    else none
  let arg2 : Option OpcodeArg2 :=
    if argument_count ≥ 2 then
      let a2 := cpu.memory.getD ((cpu.pc + 2) % 256) 0
      some (if h : a2 < 8 then OpcodeArg2.Register ⟨a2, h⟩ else OpcodeArg2.Address a2)
    else none
  { opcode_type := opcode_type
    argument_count := argument_count
    arg1 := arg1
    arg2 := arg2 }

/-- Runtime failure of `execute_instruction`: the only fallible operation in
the execute arms of the source is `/=`, which panics on a zero divisor; that
panic is embedded as an explicit error value. -/
inductive RuntimeError where
  | divByZero
deriving DecidableEq, Repr

/-- Wrapping `u8` addition (`+=` on `u8`), modulo 256. -/
def wrapping_add (a b : Nat) : Nat := (a + b) % 256

/-- Wrapping `u8` subtraction (`-=` on `u8`), modulo 256; for `a b < 256` this
is two's-complement wraparound. -/
def wrapping_sub (a b : Nat) : Nat := (a + 256 - b % 256) % 256

/-- Wrapping `u8` multiplication (`*=` on `u8`), modulo 256. -/
def wrapping_mul (a b : Nat) : Nat := (a * b) % 256

/-- `execute_instruction` of `src/cpu.rs`: decode at `pc` via `create_opcode`
and apply the arm for the decoded opcode. Every arm that needs operands
pattern-matches on the exact operand shapes it accepts and silently does
nothing otherwise. No arm advances `pc`; `Nop` and `Hlt` do nothing. The
compound-assignment arithmetic wraps modulo 256 (the wrapping semantics the
spec fixes for the machine); `/=` with a zero divisor is the embedded
`divByZero` error. -/
def execute_instruction (cpu : MicroCVMCpu) : Except RuntimeError MicroCVMCpu :=
  let opcode := create_opcode cpu
  match opcode.opcode_type with
  | OpcodeType.Inc =>
    match opcode.arg1 with
    | some (OpcodeArg1.Register reg) =>
      Except.ok { cpu with
        registers := cpu.registers.set reg.val
          (wrapping_add (cpu.registers.getD reg.val 0) 1) }
    | _ => Except.ok cpu
  | OpcodeType.Mov =>
    match opcode.arg1, opcode.arg2 with
    | some (OpcodeArg1.Register dst), some (OpcodeArg2.Address imm) =>
      Except.ok { cpu with registers := cpu.registers.set dst.val imm }
    | _, _ => Except.ok cpu
  | OpcodeType.Add =>
    match opcode.arg1, opcode.arg2 with
    | some (OpcodeArg1.Register dst), some (OpcodeArg2.Address imm) =>
      Except.ok { cpu with
        registers := cpu.registers.set dst.val
          (wrapping_add (cpu.registers.getD dst.val 0) imm) }
    | _, _ => Except.ok cpu
  | OpcodeType.Sub =>
    match opcode.arg1, opcode.arg2 with
    | some (OpcodeArg1.Register dst), some (OpcodeArg2.Address imm) =>
      Except.ok { cpu with
        registers := cpu.registers.set dst.val
          (wrapping_sub (cpu.registers.getD dst.val 0) imm) }
    | _, _ => Except.ok cpu
  | OpcodeType.Div =>
    match opcode.arg1, opcode.arg2 with
    | some (OpcodeArg1.Register dst), some (OpcodeArg2.Address imm) =>
      if imm = 0 then Except.error RuntimeError.divByZero
      else
        Except.ok { cpu with
          registers := cpu.registers.set dst.val
            (cpu.registers.getD dst.val 0 / imm) }
    | _, _ => Except.ok cpu
  | OpcodeType.Mul =>
    match opcode.arg1, opcode.arg2 with
    | some (OpcodeArg1.Register dst), some (OpcodeArg2.Address imm) =>
      Except.ok { cpu with
        registers := cpu.registers.set dst.val
          (wrapping_mul (cpu.registers.getD dst.val 0) imm) }
    | _, _ => Except.ok cpu
  | OpcodeType.Load =>
    match opcode.arg1, opcode.arg2 with
    | some (OpcodeArg1.Register dst), some (OpcodeArg2.Address addr) =>
      Except.ok { cpu with
        registers := cpu.registers.set dst.val (cpu.memory.getD addr 0) }
    | _, _ => Except.ok cpu
  | OpcodeType.Store =>
    match opcode.arg1, opcode.arg2 with
    | some (OpcodeArg1.Address addr), some (OpcodeArg2.Register src) =>
      Except.ok { cpu with
        memory := cpu.memory.set addr (cpu.registers.getD src.val 0) }
    | _, _ => Except.ok cpu
  | OpcodeType.Jmp =>
    match opcode.arg1 with
    | some (OpcodeArg1.Address target) => Except.ok { cpu with pc := target }
    | _ => Except.ok cpu
  | OpcodeType.Nop => Except.ok cpu
  | OpcodeType.Hlt => Except.ok cpu

/-- Outcome of `read_memory_from_file`: a successful load returning the byte
count, an I/O error returned to the caller by the `?` on `File::open`, or the
panic raised by the `unwrap()` on a failed `std::io::copy`. Each outcome
carries the memory state it leaves behind. -/
inductive IoOutcome where
  | ok (count : Nat) (cpu : MicroCVMCpu)
  | ioError (cpu : MicroCVMCpu)
  | panicked (cpu : MicroCVMCpu)
deriving DecidableEq, Repr

/-- Abstraction of the file operations `read_memory_from_file` performs:
either `File::open` fails, or it succeeds and `std::io::copy` streams the
file into the (cleared) memory vector — failing partway with some bytes
already appended, or delivering the whole file. -/
inductive FileRead where
  | openErr
  | copyErr (sofar : List Nat)
  | copied (bytes : List Nat)
deriving DecidableEq, Repr

/-- `read_memory_from_file` of `src/cpu.rs`: `File::open(file_path)?` returns
the I/O error before anything is mutated; otherwise `self.memory.clear()`
empties the vector and `std::io::copy(&mut file, &mut self.memory).unwrap()`
appends the streamed bytes — panicking (with whatever was appended so far)
if the copy fails, and returning `Ok(read)` with the byte count otherwise. -/
def read_memory_from_file (cpu : MicroCVMCpu) (f : FileRead) : IoOutcome :=
  match f with
  | FileRead.openErr => IoOutcome.ioError cpu
  | FileRead.copyErr sofar => IoOutcome.panicked { cpu with memory := sofar }
  | FileRead.copied bytes => IoOutcome.ok bytes.length { cpu with memory := bytes }

/-- The two run states of the engine named by the spec: it starts Running and
only a halt opcode moves it to Halted. -/
inductive RunState where
  | Running
  | Halted
deriving DecidableEq, Repr

/-- Modelled from the spec: the engine = CPU state plus the externally visible
run state of §4.3. The driver that carries this state lives outside the
provided sources (`src/` holds only `cpu.rs` and `render.rs`). -/
structure Engine where
  cpu : MicroCVMCpu
  run_state : RunState
deriving DecidableEq, Repr

/-- Modelled from the spec: one `step` of the driver loop, which is not among
the provided sources. A Halted engine ignores the call; a Running engine
fetch-decodes at `pc` and either transitions to Halted on the `Hlt` opcode
(freezing the counter, §4.3) or applies `execute_instruction` — the effect
embedded from the source — keeping the state on a runtime error (§7: errors
are local to the single step). -/
def step (e : Engine) : Engine :=
  match e.run_state with
  | RunState.Halted => e
  | RunState.Running =>
    if (create_opcode e.cpu).opcode_type = OpcodeType.Hlt then
      { e with run_state := RunState.Halted }
    else
      match execute_instruction e.cpu with
      | Except.ok c => { e with cpu := c }
      | Except.error _ => e

/-- A 256-byte memory image: the given program bytes padded with zeroes, the
shape `memory` has after `MicroCVMCpu::empty` followed by writing a program
into the low bytes (restricted to the 256 addressable bytes). -/
def mem256 (l : List Nat) : List Nat := l ++ List.replicate (256 - l.length) 0

/-- A machine about to execute `Jmp 10` at `pc = 0`. -/
def cpuJmp : MicroCVMCpu :=
  { memory := mem256 [0x05, 10], registers := List.replicate 8 0
    sp := 0, pc := 0, flags := 0 }

/-- A machine about to execute `Load r0, [10]` at `pc = 0`, with `memory[10] = 7`. -/
def cpuLoad : MicroCVMCpu :=
  { memory := (mem256 [0x01, 0x00, 10]).set 10 7, registers := List.replicate 8 0
    sp := 0, pc := 0, flags := 0 }

/-- A machine about to execute `Store [10], r0` at `pc = 0`, with `r0 = 7`. -/
def cpuStore : MicroCVMCpu :=
  { memory := mem256 [0x02, 10, 0x00], registers := 7 :: List.replicate 7 0
    sp := 0, pc := 0, flags := 0 }

/-- A machine about to execute `Mov r0, 42` at `pc = 0`. -/
def cpuMov : MicroCVMCpu :=
  { memory := mem256 [0x06, 0x00, 42], registers := List.replicate 8 0
    sp := 0, pc := 0, flags := 0 }

/-- A machine about to execute `Add r0, 5` at `pc = 0`, with `r0 = 1`: the
second operand byte 5 is below 8, so it decodes as a register. -/
def cpuAddSmall : MicroCVMCpu :=
  { memory := mem256 [0x03, 0x00, 5], registers := 1 :: List.replicate 7 0
    sp := 0, pc := 0, flags := 0 }

/-- A machine about to execute `Div r0, 0` at `pc = 0`, with `r0 = 5`. -/
def cpuDivZero : MicroCVMCpu :=
  { memory := mem256 [0x08, 0x00, 0x00], registers := 5 :: List.replicate 7 0
    sp := 0, pc := 0, flags := 0 }

/-- A machine whose memory holds prior contents `[1, 2, 3]` before a load. -/
def cpuPrior : MicroCVMCpu :=
  { memory := [1, 2, 3], registers := List.replicate 8 0
    sp := 0, pc := 0, flags := 0 }

/-- A machine about to execute `Add r0, 250` at `pc = 0`, with `r0 = 200`:
the wrapping sum is `(200 + 250) % 256 = 194`. -/
def cpuArithW : MicroCVMCpu :=
  { memory := mem256 [0x03, 0x00, 250], registers := 200 :: List.replicate 7 0
    sp := 0, pc := 0, flags := 0 }

/-- A machine with a `Div r0, 0` instruction encoded at `pc = 1`. -/
def cpuDivW : MicroCVMCpu :=
  { memory := mem256 [0x90, 0x08, 0x00, 0x00], registers := 5 :: List.replicate 7 0
    sp := 0, pc := 1, flags := 0 }

/-- A machine whose byte at `pc = 0` is `0x0A`, not in the opcode table. -/
def cpuNopW : MicroCVMCpu :=
  { memory := mem256 [0x0A], registers := List.replicate 8 0
    sp := 0, pc := 0, flags := 0 }

/-- A machine about to execute `Mov` whose second operand byte is 3 (below 8,
so it decodes as register `R3`). -/
def cpuMovRegW : MicroCVMCpu :=
  { memory := mem256 [0x06, 0x00, 0x03], registers := List.replicate 8 0
    sp := 0, pc := 0, flags := 0 }

/-- A running engine whose next opcode byte is `0xFF` (`Hlt`). -/
def engineHltW : Engine :=
  { cpu := { memory := mem256 [0xFF], registers := List.replicate 8 0
             sp := 0, pc := 0, flags := 0 }
    run_state := RunState.Running }

deriving instance DecidableEq for Except

/-- C1: the claim fails on the code. `Jmp` falls into the default arm of
`get_opcode_argument_count` and is assigned zero operands, so its target is
never decoded (`arg1 = none`) and the `Jmp` execute arm — which would set
`pc` from a decoded `Address` — never fires. Executing `Jmp 10` from
`pc = 0` leaves the machine completely unchanged, `pc` included. -/
theorem jmp_target_never_decoded :
    get_opcode_argument_count OpcodeType.Jmp = 0 ∧
    (create_opcode cpuJmp).opcode_type = OpcodeType.Jmp ∧
    (create_opcode cpuJmp).arg1 = none ∧
    execute_instruction cpuJmp = Except.ok cpuJmp ∧
    cpuJmp.pc = 0 :=
  ⟨rfl, rfl, rfl, rfl, rfl⟩

/-- C2: the claim fails on the code. `Load` and `Store` fall into the default
arm of `get_opcode_argument_count` and are assigned zero operands, so their
execute arms never fire: `Load r0, [10]` with `memory[10] = 7` leaves `r0 = 0`,
and `Store [10], r0` with `r0 = 7` leaves `memory[10] = 0`. -/
theorem load_store_operands_never_decoded :
    get_opcode_argument_count OpcodeType.Load = 0 ∧
    get_opcode_argument_count OpcodeType.Store = 0 ∧
    cpuLoad.memory.getD 10 0 = 7 ∧
    execute_instruction cpuLoad = Except.ok cpuLoad ∧
    cpuLoad.registers.getD 0 0 = 0 ∧
    cpuStore.registers.getD 0 0 = 7 ∧
    execute_instruction cpuStore = Except.ok cpuStore ∧
    cpuStore.memory.getD 10 0 = 0 :=
  ⟨rfl, rfl, by decide, rfl, by decide, by decide, rfl, by decide⟩

/-- C3: the claim fails on the code. `execute_instruction` contains no
program-counter advancement: `Mov r0, 42` executed at `pc = 0` sets register 0
to 42 but leaves `pc` at 0 instead of advancing it by the encoded length 3. -/
theorem mov_executes_without_pc_advance :
    execute_instruction cpuMov =
      Except.ok { cpuMov with registers := cpuMov.registers.set 0 42 } ∧
    ({ cpuMov with registers := cpuMov.registers.set 0 42 } : MicroCVMCpu).pc = 0 ∧
    cpuMov.pc = 0 ∧
    ¬ ({ cpuMov with registers := cpuMov.registers.set 0 42 } : MicroCVMCpu).pc = 3 :=
  ⟨rfl, rfl, rfl, by decide⟩

/-- C9: the claim fails on the code. `MicroCVMCpu::empty` does allocate
`FREE_MEMORY = 2 MiB ≥ 256` bytes, but `read_memory_from_file` clears the
vector and appends only the file's bytes: loading the 2-byte program
`[0x90, 0x00]` leaves `memory.length = 2 < 256`, so 8-bit addressing can
index past the allocated buffer afterwards. -/
theorem short_load_shrinks_memory_below_256 :
    MicroCVMCpu.empty.memory.length = FREE_MEMORY ∧
    256 ≤ MicroCVMCpu.empty.memory.length ∧
    read_memory_from_file MicroCVMCpu.empty (FileRead.copied [0x90, 0x00]) =
      IoOutcome.ok 2 { MicroCVMCpu.empty with memory := [0x90, 0x00] } ∧
    ({ MicroCVMCpu.empty with memory := [0x90, 0x00] } : MicroCVMCpu).memory.length < 256 := by
  have h : MicroCVMCpu.empty.memory.length = FREE_MEMORY := List.length_replicate _ _
  refine ⟨h, ?_, rfl, by decide⟩
  rw [h]
  norm_num [FREE_MEMORY]

/-- C8 counterexample: when `std::io::copy` fails after a successful open, the
`unwrap()` panics with `memory` already cleared and partially refilled — here
prior contents `[1, 2, 3]` have become `[9]`, so memory is not left in its
prior state on this I/O failure. -/
theorem load_copy_failure_mutates_memory :
    read_memory_from_file cpuPrior (FileRead.copyErr [9]) =
      IoOutcome.panicked { cpuPrior with memory := [9] } ∧
    ¬ ({ cpuPrior with memory := [9] } : MicroCVMCpu).memory = cpuPrior.memory :=
  ⟨rfl, by decide⟩

/-- C8 amended: the load is atomic on the open-failure path only. A failed
`File::open` surfaces the I/O error with memory untouched; a completed copy
replaces memory by exactly the file's bytes and returns their count; but a
copy failure after a successful open panics with memory already replaced by
the partially copied bytes. -/
theorem load_program_outcomes (cpu : MicroCVMCpu) (bytes sofar : List Nat) :
    read_memory_from_file cpu FileRead.openErr = IoOutcome.ioError cpu ∧
    read_memory_from_file cpu (FileRead.copied bytes) =
      IoOutcome.ok bytes.length { cpu with memory := bytes } ∧
    read_memory_from_file cpu (FileRead.copyErr sofar) =
      IoOutcome.panicked { cpu with memory := sofar } :=
  ⟨rfl, rfl, rfl⟩

/-- C4 counterexample: `Add r0, 5` on a machine with `r0 = 1` leaves the
machine unchanged — the operand byte 5 is below 8 and decodes as a register,
so the `Add` arm never fires — instead of producing the wrapping sum
`(1 + 5) % 256 = 6` the claim promises for every operand in `[0, 255]`. -/
theorem add_small_operand_counterexample :
    execute_instruction cpuAddSmall = Except.ok cpuAddSmall ∧
    ¬ execute_instruction cpuAddSmall =
        Except.ok { cpuAddSmall with
          registers := cpuAddSmall.registers.set 0
            ((cpuAddSmall.registers.getD 0 0 + 5) % 256) } :=
  ⟨rfl, by decide⟩

/-- C4 amended: for every starting register state and every operand byte in
`[8, 255]` — the range that decodes as a numeric operand — `Add`, `Sub` and
`Mul` perform wrapping modulo-256 arithmetic on the destination register, and
the one-operand `Inc` does so for every register value (so `Inc` on 255 gives
`(255 + 1) % 256 = 0`); no other state component, the flags included, changes.
Operand bytes in `[0, 7]` decode as registers and leave the state unchanged. -/
theorem arith_ops_wrap_mod256 (cpu : MicroCVMCpu) (dst imm : Nat)
    (hdst : dst < 8) (hlo : 8 ≤ imm) (hhi : imm < 256)
    (_hpc : cpu.pc < 256) (_hlen : 256 ≤ cpu.memory.length)
    (harg1 : cpu.memory.getD ((cpu.pc + 1) % 256) 0 = dst)
    (harg2 : cpu.memory.getD ((cpu.pc + 2) % 256) 0 = imm) :
    (cpu.memory.getD cpu.pc 0 = 0x03 →
      execute_instruction cpu = Except.ok { cpu with
        registers := cpu.registers.set dst ((cpu.registers.getD dst 0 + imm) % 256) }) ∧
    (cpu.memory.getD cpu.pc 0 = 0x04 →
      execute_instruction cpu = Except.ok { cpu with
        registers := cpu.registers.set dst ((cpu.registers.getD dst 0 + 256 - imm) % 256) }) ∧
    (cpu.memory.getD cpu.pc 0 = 0x09 →
      execute_instruction cpu = Except.ok { cpu with
        registers := cpu.registers.set dst ((cpu.registers.getD dst 0 * imm) % 256) }) ∧
    (cpu.memory.getD cpu.pc 0 = 0x07 →
      execute_instruction cpu = Except.ok { cpu with
        registers := cpu.registers.set dst ((cpu.registers.getD dst 0 + 1) % 256) }) := by
  have himm : ¬ imm < 8 := by omega
  refine ⟨fun hmem => ?_, fun hmem => ?_, fun hmem => ?_, fun hmem => ?_⟩ <;>
  · simp only [execute_instruction, create_opcode, hmem, OpcodeType.try_from, harg1, harg2]
    norm_num [get_opcode_argument_count]
    simp [hdst, himm, wrapping_add, wrapping_sub, wrapping_mul, Nat.mod_eq_of_lt hhi]

/-- C4 witness: `Add r0, 250` with `r0 = 200` wraps to `(200 + 250) % 256`. -/
theorem arith_ops_wrap_mod256_witness :
    execute_instruction cpuArithW = Except.ok { cpuArithW with
      registers := cpuArithW.registers.set 0 ((cpuArithW.registers.getD 0 0 + 250) % 256) } :=
  (arith_ops_wrap_mod256 cpuArithW 0 250 (by decide) (by decide) (by decide)
    (by decide) (by decide) (by decide) (by decide)).1 (by decide)

/-- C5 counterexample: `Div r0, 0` with `r0 = 5` raises no error at all — the
execution succeeds with the machine unchanged, it does not return the
division-by-zero error — because the operand byte 0 decodes as a register and
the `Div` arm never fires. -/
theorem div_zero_no_error_counterexample :
    execute_instruction cpuDivZero = Except.ok cpuDivZero ∧
    ¬ execute_instruction cpuDivZero = Except.error RuntimeError.divByZero ∧
    cpuDivZero.registers.getD 0 0 = 5 :=
  ⟨rfl, by decide, by decide⟩

/-- C5 amended: executing `Div` whose operand byte is 0 leaves the whole
machine unchanged and raises no runtime error: the byte 0 decodes as register
`R0`, the `Div` arm requires an `Address` operand and silently does nothing,
so the division — and with it the division-by-zero condition — is never
reached. -/
theorem div_zero_operand_is_noop (cpu : MicroCVMCpu)
    (_hpc : cpu.pc < 256) (_hlen : 256 ≤ cpu.memory.length)
    (hmem : cpu.memory.getD cpu.pc 0 = 0x08)
    (harg2 : cpu.memory.getD ((cpu.pc + 2) % 256) 0 = 0) :
    execute_instruction cpu = Except.ok cpu := by
  by_cases h1 : cpu.memory.getD ((cpu.pc + 1) % 256) 0 < 8 <;>
  · simp only [execute_instruction, create_opcode, hmem, OpcodeType.try_from, harg2]
    norm_num [get_opcode_argument_count]
    simp [h1]

/-- C5 witness: the `Div r0, 0` at `pc = 1` executes to the unchanged state. -/
theorem div_zero_operand_is_noop_witness :
    execute_instruction cpuDivW = Except.ok cpuDivW :=
  div_zero_operand_is_noop cpuDivW (by decide) (by decide) (by decide) (by decide)

/-- C6: every byte outside the fixed opcode table (the values `0x01`–`0x09`,
`0x90`, `0xFF`) decodes to the `Nop` opcode — `create_opcode` is total, the
failed `try_from` is absorbed by `unwrap_or(Nop)` — and executing it returns
the machine unchanged: registers, memory and everything else. -/
theorem unknown_opcode_decodes_nop_and_is_noop (cpu : MicroCVMCpu) (b : Nat)
    (_hpc : cpu.pc < 256) (_hlen : 256 ≤ cpu.memory.length)
    (hmem : cpu.memory.getD cpu.pc 0 = b)
    (hb : b ∉ ([0x01, 0x02, 0x03, 0x04, 0x05, 0x06, 0x07, 0x08, 0x09, 0x90, 0xFF] : List Nat)) :
    (create_opcode cpu).opcode_type = OpcodeType.Nop ∧
    execute_instruction cpu = Except.ok cpu := by
  simp only [List.mem_cons, List.not_mem_nil, or_false, not_or] at hb
  obtain ⟨h1, h2, h3, h4, h5, h6, h7, h8, h9, h10, h11⟩ := hb
  have htf : OpcodeType.try_from b = Except.error { byte := b } := by
    unfold OpcodeType.try_from
    simp [h1, h2, h3, h4, h5, h6, h7, h8, h9, h10, h11]
  have hdec : create_opcode cpu =
      { opcode_type := OpcodeType.Nop, argument_count := 0, arg1 := none, arg2 := none } := by
    simp only [create_opcode, hmem, htf]
    simp [get_opcode_argument_count]
  refine ⟨by rw [hdec], ?_⟩
  simp only [execute_instruction, hdec]

/-- C6 witness: the byte `0x0A` is not in the table, decodes as `Nop`, and
executing it changes nothing. -/
theorem unknown_opcode_witness :
    (create_opcode cpuNopW).opcode_type = OpcodeType.Nop ∧
    execute_instruction cpuNopW = Except.ok cpuNopW :=
  unknown_opcode_decodes_nop_and_is_noop cpuNopW 0x0A (by decide) (by decide)
    (by decide) (by decide)

/-- A halted engine ignores `step` entirely. -/
theorem step_of_halted_is_id (e : Engine) (h : e.run_state = RunState.Halted) :
    step e = e := by
  simp [step, h]

/-- C7: when a running engine fetches the `Hlt` opcode, `step` transitions it
to Halted with the CPU state — registers, memory and program counter — left
untouched, and every later `step` is the identity on the halted engine. -/
theorem hlt_halts_and_freezes (e : Engine)
    (hrun : e.run_state = RunState.Running)
    (hop : (create_opcode e.cpu).opcode_type = OpcodeType.Hlt) :
    (step e).run_state = RunState.Halted ∧
    (step e).cpu = e.cpu ∧
    ∀ n : Nat, step^[n] (step e) = step e := by
  have hs : step e = { e with run_state := RunState.Halted } := by
    simp [step, hrun, hop]
  refine ⟨by rw [hs], by rw [hs], ?_⟩
  intro n
  induction n with
  | zero => rfl
  | succ n ih =>
    rw [Function.iterate_succ_apply, step_of_halted_is_id (step e) (by rw [hs]), ih]

/-- C7 witness: a running engine about to fetch `0xFF` halts and three more
steps leave it exactly where the halting step left it. -/
theorem hlt_halts_and_freezes_witness :
    (step engineHltW).run_state = RunState.Halted ∧
    step^[3] (step engineHltW) = step engineHltW :=
  ⟨(hlt_halts_and_freezes engineHltW rfl (by decide)).1,
   (hlt_halts_and_freezes engineHltW rfl (by decide)).2.2 3⟩

/-- C10: for the two-operand opcodes `Mov` (`0x06`), `Add` (`0x03`), `Sub`
(`0x04`), `Div` (`0x08`) and `Mul` (`0x09`), a second operand byte in
`[0, 7]` is decoded as a register, and since each of these execute arms
demands an `Address` second operand, execution silently changes nothing:
every register, every memory cell, and the rest of the state stay as they
were. -/
theorem small_second_operand_decodes_register_and_is_noop
    (cpu : MicroCVMCpu) (op b : Nat)
    (hop : op = 0x06 ∨ op = 0x03 ∨ op = 0x04 ∨ op = 0x08 ∨ op = 0x09)
    (hb : b < 8)
    (_hpc : cpu.pc < 256) (_hlen : 256 ≤ cpu.memory.length)
    (hmem : cpu.memory.getD cpu.pc 0 = op)
    (harg2 : cpu.memory.getD ((cpu.pc + 2) % 256) 0 = b) :
    (create_opcode cpu).arg2 = some (OpcodeArg2.Register ⟨b, hb⟩) ∧
    execute_instruction cpu = Except.ok cpu := by
  rcases hop with rfl | rfl | rfl | rfl | rfl <;>
  · constructor
    · simp only [create_opcode, hmem, OpcodeType.try_from, harg2]
      norm_num [get_opcode_argument_count]
      exact dif_pos hb
    · by_cases h1 : cpu.memory.getD ((cpu.pc + 1) % 256) 0 < 8 <;>
      · simp only [execute_instruction, create_opcode, hmem, OpcodeType.try_from, harg2]
        norm_num [get_opcode_argument_count]
        simp [h1, hb]

/-- C10 witness: `Mov r0, 3` decodes its second byte as register `R3` and
executes to the unchanged machine. -/
theorem small_second_operand_witness :
    (create_opcode cpuMovRegW).arg2 =
      some (OpcodeArg2.Register ⟨3, by norm_num⟩) ∧
    execute_instruction cpuMovRegW = Except.ok cpuMovRegW :=
  small_second_operand_decodes_register_and_is_noop cpuMovRegW 0x06 3
    (Or.inl rfl) (by norm_num) (by decide) (by decide) (by decide) (by decide)

end MicroCVM
